import Mathlib

/-!
Verification development for the wallbox_control repository.

Currents are Python floats in the source; they are modelled as rationals
here, which is exact for every value the arbitration and encoding logic
manipulates (decimal literals, minima, comparisons, scaling by 10).
Python dictionaries keyed by the two-valued LimitSource enum are modelled
as two optional slots, which is an exact representation because the two
installation paths in the source always key a snapshot by its own source
field.
-/

/-- The limit sources, from class LimitSource in limits.py. -/
inductive LimitSource where
  | HARDWARE_INPUT
  | MANUAL_REQUEST
deriving DecidableEq, Repr

/-- String value of each enum member, from limits.py. -/
def LimitSource.value : LimitSource → String
  | .HARDWARE_INPUT => "hardware_inputs"
  | .MANUAL_REQUEST => "manual_request"

/-- Diagnostic payload of a snapshot. The source stores a free-form dict;
only the shapes actually constructed in the source are represented: the
empty dict default, and the inputs-plus-mode dict built by
HardwareInputLimiter.evaluate. -/
inductive SnapshotDetails where
  | empty
  | hwInputs (inputs : List (String × Bool)) (mode : String)
deriving DecidableEq, Repr

/-- One limit sources opinion of the allowed current, from dataclass
LimitSnapshot in limits.py. -/
structure LimitSnapshot where
  source : LimitSource
  enforced : Bool
  current_amps : Option ℚ
  description : String
  details : SnapshotDetails
deriving DecidableEq, Repr

/-- The resolved output of one arbitration pass, from dataclass
LimitDecision in limits.py. The snapshots field maps source value strings
to snapshots. -/
structure LimitDecision where
  applied_current : Option ℚ
  origin : Option String
  overridden : Bool
  snapshots : List (String × LimitSnapshot)
deriving DecidableEq, Repr

/-- State of CurrentLimitManager from limits.py: the snapshot dict (two
optional slots, one per LimitSource key), the remembered manual request
value, and the last resolved decision. -/
structure ManagerState where
  hw : Option LimitSnapshot
  man : Option LimitSnapshot
  manualRequest : Option ℚ
  lastDecision : Option LimitDecision
deriving DecidableEq, Repr

/-- Fresh manager, from CurrentLimitManager.__init__. -/
def initManager : ManagerState :=
  { hw := none, man := none, manualRequest := none, lastDecision := none }

/-- The values of the snapshot dict in iteration order (hardware slot was
always inserted by apply_override_snapshot keyed by the snapshot source;
order is irrelevant to every use below because at most one non-manual
snapshot can exist). -/
def ManagerState.snapshotValues (st : ManagerState) : List LimitSnapshot :=
  (match st.hw with | some s => [s] | none => []) ++
    (match st.man with | some s => [s] | none => [])

/-- Python min over a nonempty list of floats; none for the empty list. -/
def listMin : List ℚ → Option ℚ
  | [] => none
  | x :: xs => some (xs.foldl min x)

/-- The hardware_limits list comprehension in CurrentLimitManager._resolve:
non-manual, enforced snapshots with a present current value. -/
def ManagerState.hardwareLimits (st : ManagerState) : List LimitSnapshot :=
  st.snapshotValues.filter fun snap =>
    snap.source ≠ LimitSource.MANUAL_REQUEST ∧ snap.enforced ∧ snap.current_amps ≠ none

/-- The dict of snapshots exposed on every decision, from _resolve. -/
def ManagerState.snapshotDict (st : ManagerState) : List (String × LimitSnapshot) :=
  (match st.hw with | some s => [(LimitSource.HARDWARE_INPUT.value, s)] | none => []) ++
    (match st.man with | some s => [(LimitSource.MANUAL_REQUEST.value, s)] | none => [])

/-- CurrentLimitManager._resolve from limits.py. Returns the decision and
the state with the remembered last decision overwritten. -/
def ManagerState.resolve (st : ManagerState) : LimitDecision × ManagerState :=
  let hardware_limits := st.hardwareLimits
  let manual_current : Option ℚ :=
    match st.man with
    | some snap => if snap.enforced then snap.current_amps else none
    | none => none
  let core : Option ℚ × Option String × Bool :=
    match listMin (hardware_limits.filterMap (·.current_amps)), manual_current with
    | some hw_max, some m =>
        (some (min m hw_max), some LimitSource.MANUAL_REQUEST.value, decide (m > hw_max))
    | some hw_max, none =>
        (some hw_max,
          (hardware_limits.find? fun snap => decide (snap.current_amps = some hw_max)).map
            (fun snap => snap.source.value),
          false)
    | none, some m => (some m, some LimitSource.MANUAL_REQUEST.value, false)
    | none, none => (none, none, false)
  let decision : LimitDecision :=
    { applied_current := core.1
      origin := core.2.1
      overridden := core.2.2
      snapshots := st.snapshotDict }
  (decision, { st with lastDecision := some decision })

/-- CurrentLimitManager.request_manual from limits.py. -/
def ManagerState.requestManual (st : ManagerState) (value : Option ℚ) :
    LimitDecision × ManagerState :=
  let description :=
    if value.isSome then "Manual request active" else "Manual request cleared"
  let snapshot : LimitSnapshot :=
    { source := LimitSource.MANUAL_REQUEST
      enforced := value.isSome
      current_amps := value
      description := description
      details := SnapshotDetails.empty }
  ManagerState.resolve { st with manualRequest := value, man := some snapshot }

/-- CurrentLimitManager.apply_override_snapshot from limits.py: installs
the snapshot under the key given by its own source field, then resolves.
The remembered manual request value is not touched. -/
def ManagerState.applyOverrideSnapshot (st : ManagerState) (snapshot : LimitSnapshot) :
    LimitDecision × ManagerState :=
  match snapshot.source with
  | LimitSource.HARDWARE_INPUT => ManagerState.resolve { st with hw := some snapshot }
  | LimitSource.MANUAL_REQUEST => ManagerState.resolve { st with man := some snapshot }

/-- CurrentLimitManager.clear_source from limits.py. -/
def ManagerState.clearSource (st : ManagerState) (source : LimitSource) :
    LimitDecision × ManagerState :=
  match source with
  | LimitSource.HARDWARE_INPUT => ManagerState.resolve { st with hw := none }
  | LimitSource.MANUAL_REQUEST =>
      ManagerState.resolve { st with man := none, manualRequest := none }

/-- Shape of CurrentLimitManager.debug_snapshot output. -/
structure DebugInfo where
  manual_request : Option ℚ
  applied_current : Option ℚ
  origin : Option String
  overridden : Bool
  sources : List (String × LimitSnapshot)
deriving DecidableEq, Repr

/-- CurrentLimitManager.debug_snapshot from limits.py. -/
def ManagerState.debugSnapshot (st : ManagerState) : DebugInfo :=
  { manual_request := st.manualRequest
    applied_current := st.lastDecision.bind (·.applied_current)
    origin := st.lastDecision.bind (·.origin)
    overridden := (st.lastDecision.map (·.overridden)).getD false
    sources := st.snapshotDict }

/-- Default pin label of HardwareInputLimiter.__init__ in limits.py. -/
def defaultPinLabel : String := "GPIO6"

/-- HardwareInputLimiter.evaluate from limits.py. The method declares a
single input parameter (first_high) besides self; there is no second
input parameter in its signature. -/
def HardwareInputLimiter.evaluate (pinLabel : String) (first_high : Bool) : LimitSnapshot :=
  if ¬ first_high then
    { source := LimitSource.HARDWARE_INPUT
      enforced := true
      current_amps := some 16
      description := "Hardware override: input 1 LOW -> 16A"
      details := SnapshotDetails.hwInputs [(pinLabel, first_high)] "normal_charge" }
  else
    { source := LimitSource.HARDWARE_INPUT
      enforced := true
      current_amps := some 6
      description := "Hardware override: input 1 HIGH -> 6A"
      details := SnapshotDetails.hwInputs [(pinLabel, first_high)] "reduced_charge" }

/-- Python exceptions raised by the modelled code paths. -/
inductive PyExc where
  | osError (msg : String)
  | serialException (msg : String)
  | typeError (msg : String)
  | valueError (msg : String)
  | verificationMismatch (addr value readBack : ℤ)
  | exhaustedRetries (last : Option PyExc)
  | readFailed (addr : ℤ) (cause : PyExc)
  | writeFailed (addr value : ℤ) (cause : PyExc)

/-- Dynamic call of HardwareInputLimiter.evaluate with an explicit
positional-argument list. The method accepts exactly one argument, so
Python raises TypeError before the body runs for any other arity. -/
def callEvaluate (pinLabel : String) (args : List Bool) : Except PyExc LimitSnapshot :=
  match args with
  | [a] => Except.ok (HardwareInputLimiter.evaluate pinLabel a)
  | _ => Except.error (PyExc.typeError "evaluate() takes 2 positional arguments but 3 were given")

/-- The exception classes caught by the retry loop in
WallboxInstrument._execute_with_reconnect: OSError and
serial.SerialException. Every other exception is re-raised at once. -/
def isSerialFault : PyExc → Bool
  | PyExc.osError _ => true
  | PyExc.serialException _ => true
  | _ => false

/-- MAX_RECONNECT_ATTEMPTS from modbus.py. -/
def MAX_RECONNECT_ATTEMPTS : Nat := 3

/-- Observable outcome of one _execute_with_reconnect run: the returned
value or raised exception, the number of times the wrapped operation was
executed, and the number of reconnection attempts performed. -/
structure ExecTrace (α : Type) where
  result : Except PyExc α
  attempts : Nat
  reconnects : Nat

/-- The retry loop body of WallboxInstrument._execute_with_reconnect.
The operation is a function of the attempt index, so a device whose
behaviour changes between attempts is expressible. The fuel argument is
the number of loop iterations remaining (MAX_RECONNECT_ATTEMPTS minus
the current attempt index); reconnection is attempted, and counted,
exactly when a serial fault occurs on a non-final attempt, whether or
not the reconnection itself succeeds (the source continues either way). -/
def execAux (op : Nat → Except PyExc α) :
    Nat → Nat → Nat → Option PyExc → ExecTrace α
  | 0, attempt, reconnects, lastExc =>
      { result := Except.error (PyExc.exhaustedRetries lastExc)
        attempts := attempt
        reconnects := reconnects }
  | remaining + 1, attempt, reconnects, _lastExc =>
      match op attempt with
      | Except.ok v => { result := Except.ok v, attempts := attempt + 1, reconnects := reconnects }
      | Except.error e =>
          if isSerialFault e then
            if remaining > 0 then
              execAux op remaining (attempt + 1) (reconnects + 1) (some e)
            else
              execAux op remaining (attempt + 1) reconnects (some e)
          else
            { result := Except.error e, attempts := attempt + 1, reconnects := reconnects }

/-- WallboxInstrument._execute_with_reconnect from modbus.py. -/
def executeWithReconnect (op : Nat → Except PyExc α) : ExecTrace α :=
  execAux op MAX_RECONNECT_ATTEMPTS 0 0 none

/-- WallboxInstrument._read_register from modbus.py: runs the read under
the retry loop and wraps any escaping exception in a RuntimeError naming
the register address. -/
def readRegister (addr : ℤ) (op : Nat → Except PyExc ℤ) : ExecTrace ℤ :=
  let t := executeWithReconnect op
  match t.result with
  | Except.ok _ => t
  | Except.error e =>
      { result := Except.error (PyExc.readFailed addr e)
        attempts := t.attempts
        reconnects := t.reconnects }

/-- The inner _write_and_verify closure of WallboxInstrument._write_register:
write the register, read it back with function code 3, and raise a
RuntimeError (not a serial fault) when the read-back differs from the
written value. The device behaviour on a given attempt is supplied as the
write outcome and the read-back outcome. -/
def writeAndVerify (writeRes : Except PyExc Unit) (readRes : Except PyExc ℤ)
    (addr value : ℤ) : Except PyExc Bool :=
  match writeRes with
  | Except.error e => Except.error e
  | Except.ok _ =>
      match readRes with
      | Except.error e => Except.error e
      | Except.ok v =>
          if v ≠ value then
            Except.error (PyExc.verificationMismatch addr value v)
          else
            Except.ok true

/-- WallboxInstrument._write_register from modbus.py: the verified write
under the retry loop, with the outer RuntimeError wrapper naming the
address and value. -/
def writeRegister (addr value : ℤ) (writes : Nat → Except PyExc Unit)
    (reads : Nat → Except PyExc ℤ) : ExecTrace Bool :=
  let t := executeWithReconnect fun attempt =>
    writeAndVerify (writes attempt) (reads attempt) addr value
  match t.result with
  | Except.ok _ => t
  | Except.error e =>
      { result := Except.error (PyExc.writeFailed addr value e)
        attempts := t.attempts
        reconnects := t.reconnects }

/-- fit_uint16 from wallbox.py: clamp to the 16-bit unsigned range. -/
def fit_uint16 (value : ℤ) : ℤ :=
  if value < 0 then 0
  else if value > 65535 then 65535
  else value

/-- The Python builtin int() applied to a float: truncation toward zero,
the floor for non-negative arguments and the ceiling for negative ones. -/
def pyInt (q : ℚ) : ℤ := if 0 ≤ q then ⌊q⌋ else ⌈q⌉

/-- The max_current property setter of class Wallbox in wallbox.py:
int_value = int(value * 10); raise ValueError when int_value is nonzero
and outside 60..160; otherwise write fit_uint16(int_value) to register
261. The result is the raw value handed to _write_register. -/
def Wallbox.setMaxCurrentEncode (value : ℚ) : Except PyExc ℤ :=
  let int_value := pyInt (value * 10)
  if int_value ≠ 0 ∧ (int_value < 60 ∨ int_value > 160) then
    Except.error (PyExc.valueError "Invalid max current")
  else
    Except.ok (fit_uint16 int_value)

/-- The failsafe_current property setter of class Wallbox in wallbox.py:
same encoding as max_current, written to register 262. -/
def Wallbox.setFailsafeCurrentEncode (value : ℚ) : Except PyExc ℤ :=
  let int_value := pyInt (value * 10)
  if (int_value < 60 ∨ int_value > 160) ∧ int_value ≠ 0 then
    Except.error (PyExc.valueError "Invalid failsafe current")
  else
    Except.ok (fit_uint16 int_value)

/-- The decode step of the max_current property getter of class Wallbox
in wallbox.py, applied to the raw value read from register 261: the
source returns the raw value divided by 10.0 with no validity check. -/
def Wallbox.maxCurrentDecode (raw : ℤ) : Except PyExc ℚ :=
  Except.ok ((raw : ℚ) / 10)

/-- The decode step of the failsafe_current property getter of class
Wallbox in wallbox.py: scale by 0.1 when the raw value is 0 or in
60..160, otherwise raise ValueError. (Embedded for contrast with the
unvalidated max_current getter.) -/
def Wallbox.failsafeCurrentDecode (raw : ℤ) : Except PyExc ℚ :=
  if (raw ≥ 60 ∧ raw ≤ 160) ∨ raw = 0 then
    Except.ok ((raw : ℚ) / 10)
  else
    Except.error (PyExc.valueError "Invalid failsafe current")

/-- State of WallboxController from main.py that the limit path touches:
the limit manager, the remembered last applied current, and the list of
values passed to the wallbox max_current setter (the device write log). -/
structure CtrlState where
  manager : ManagerState
  lastApplied : Option ℚ
  writeCalls : List ℚ
deriving DecidableEq, Repr

/-- Fresh controller state, from WallboxController.__init__. -/
def initCtrl : CtrlState :=
  { manager := initManager, lastApplied := none, writeCalls := [] }

/-- WallboxController._apply_decision from main.py. The success of the
device write (the wallbox max_current setter call), when one is
attempted, is supplied as writeOk. Returns the value the source method
returns and the updated controller state. -/
def applyDecision (writeOk : Bool) (cs : CtrlState) (decision : LimitDecision) :
    Option ℚ × CtrlState :=
  match decision.applied_current with
  | none => (none, cs)
  | some target =>
      match cs.lastApplied with
      | some last =>
          if |last - target| < 1/20 then
            (some target, cs)
          else if writeOk then
            (some target,
              { cs with lastApplied := some target, writeCalls := cs.writeCalls ++ [target] })
          else
            (none, { cs with lastApplied := none, writeCalls := cs.writeCalls ++ [target] })
      | none =>
          if writeOk then
            (some target,
              { cs with lastApplied := some target, writeCalls := cs.writeCalls ++ [target] })
          else
            (none, { cs with lastApplied := none, writeCalls := cs.writeCalls ++ [target] })

/-- WallboxController.request_manual_max_current from main.py: resolve
through the manager, attempt to apply, then overwrite the decision
applied_current field with the value _apply_decision returned. -/
def requestManualMaxCurrent (writeOk : Bool) (cs : CtrlState) (value : ℚ) :
    LimitDecision × CtrlState :=
  let r := cs.manager.requestManual (some value)
  let a := applyDecision writeOk { cs with manager := r.2 } r.1
  ({ r.1 with applied_current := a.1 }, a.2)

/-- WallboxController.update_hardware_inputs from main.py: the source
calls self._hardware_limiter.evaluate(gpio13_high, gpio14_high) with two
arguments, so the dynamic call is modelled through callEvaluate with a
two-element argument list. On success the snapshot is installed and the
decision applied as in the source. -/
def updateHardwareInputs (writeOk : Bool) (cs : CtrlState) (gpio13_high gpio14_high : Bool) :
    Except PyExc (LimitDecision × CtrlState) :=
  match callEvaluate defaultPinLabel [gpio13_high, gpio14_high] with
  | Except.error e => Except.error e
  | Except.ok snapshot =>
      let r := cs.manager.applyOverrideSnapshot snapshot
      let a := applyDecision writeOk { cs with manager := r.2 } r.1
      Except.ok ({ r.1 with applied_current := a.1 }, a.2)

/-- One unfolding step of the retry loop, used to evaluate traces when
the operation outcomes are abstract. -/
theorem execAux_step (op : Nat → Except PyExc α) (remaining attempt reconnects : Nat)
    (lastExc : Option PyExc) :
    execAux op (remaining + 1) attempt reconnects lastExc =
      match op attempt with
      | Except.ok v => { result := Except.ok v, attempts := attempt + 1, reconnects := reconnects }
      | Except.error e =>
          if isSerialFault e then
            if remaining > 0 then
              execAux op remaining (attempt + 1) (reconnects + 1) (some e)
            else
              execAux op remaining (attempt + 1) reconnects (some e)
          else
            { result := Except.error e, attempts := attempt + 1, reconnects := reconnects } := rfl

/-- C1: the claim requires a Hardware Input Limiter over a pair of
digital-input states realising the four-row truth table, and the tests
of the repository exercise exactly that interface; the evaluate method
in limits.py instead declares a single input parameter, so the
two-argument call raises TypeError, and the one-input body never
produces the 0 A no_charge row: with its only input true it yields 6 A
reduced_charge. -/
theorem hardware_limiter_truth_table_bug :
    callEvaluate "GPIO13" [true, false] =
      Except.error (PyExc.typeError "evaluate() takes 2 positional arguments but 3 were given") ∧
    (HardwareInputLimiter.evaluate "GPIO13" true).current_amps = some 6 ∧
    (HardwareInputLimiter.evaluate "GPIO13" true).details =
      SnapshotDetails.hwInputs [("GPIO13", true)] "reduced_charge" ∧
    (HardwareInputLimiter.evaluate "GPIO13" false).current_amps = some 16 ∧
    (HardwareInputLimiter.evaluate "GPIO13" false).details =
      SnapshotDetails.hwInputs [("GPIO13", false)] "normal_charge" := by
  refine ⟨rfl, ?_, ?_, ?_, ?_⟩ <;> simp [HardwareInputLimiter.evaluate]

/-- C2: update_hardware_inputs never returns a LimitDecision; for every
pair of boolean inputs and every controller state the call raises
TypeError, because main.py passes two positional arguments to the
single-parameter evaluate method of limits.py. -/
theorem update_hardware_inputs_raises (writeOk : Bool) (cs : CtrlState)
    (gpio13_high gpio14_high : Bool) :
    updateHardwareInputs writeOk cs gpio13_high gpio14_high =
      Except.error (PyExc.typeError "evaluate() takes 2 positional arguments but 3 were given") := rfl

/-- C3: whenever the manager holds a non-manual enforced snapshot with a
present current h and a manual snapshot that is enforced with a present
current m, resolution applies min m h, reports origin manual_request,
and sets overridden exactly when m exceeds the hardware minimum. -/
theorem resolve_manual_with_hardware (st : ManagerState) (hs ms : LimitSnapshot) (h m : ℚ)
    (hhw : st.hw = some hs) (hsrc : hs.source = LimitSource.HARDWARE_INPUT)
    (hen : hs.enforced = true) (hcur : hs.current_amps = some h)
    (hman : st.man = some ms) (hmsrc : ms.source = LimitSource.MANUAL_REQUEST)
    (hmen : ms.enforced = true) (hmc : ms.current_amps = some m) :
    st.resolve.1.applied_current = some (min m h) ∧
    st.resolve.1.origin = some "manual_request" ∧
    st.resolve.1.overridden = decide (m > h) := by
  obtain ⟨shw, sman, mr, ld⟩ := st
  simp only at hhw hman
  subst hhw hman
  simp [ManagerState.resolve, ManagerState.hardwareLimits, ManagerState.snapshotValues,
    listMin, List.filter, hsrc, hen, hcur, hmsrc, hmen, hmc, LimitSource.value]

/-- Concrete instance of resolve_manual_with_hardware: hardware 6 A with
manual 16 A applies 6 A, origin manual_request, overridden true. -/
theorem resolve_manual_with_hardware_witness :
    (ManagerState.resolve
        { hw := some { source := LimitSource.HARDWARE_INPUT, enforced := true,
                       current_amps := some 6, description := "hw",
                       details := SnapshotDetails.empty }
          man := some { source := LimitSource.MANUAL_REQUEST, enforced := true,
                        current_amps := some 16, description := "man",
                        details := SnapshotDetails.empty }
          manualRequest := some 16
          lastDecision := none }).1.applied_current = some (min 16 6) ∧
    (ManagerState.resolve
        { hw := some { source := LimitSource.HARDWARE_INPUT, enforced := true,
                       current_amps := some 6, description := "hw",
                       details := SnapshotDetails.empty }
          man := some { source := LimitSource.MANUAL_REQUEST, enforced := true,
                        current_amps := some 16, description := "man",
                        details := SnapshotDetails.empty }
          manualRequest := some 16
          lastDecision := none }).1.origin = some "manual_request" ∧
    (ManagerState.resolve
        { hw := some { source := LimitSource.HARDWARE_INPUT, enforced := true,
                       current_amps := some 6, description := "hw",
                       details := SnapshotDetails.empty }
          man := some { source := LimitSource.MANUAL_REQUEST, enforced := true,
                        current_amps := some 16, description := "man",
                        details := SnapshotDetails.empty }
          manualRequest := some 16
          lastDecision := none }).1.overridden = decide ((16 : ℚ) > 6) :=
  resolve_manual_with_hardware _ _ _ 6 16 rfl rfl rfl rfl rfl rfl rfl rfl

/-- C4: a register read retries transient link faults with reconnection,
bounded at 3 total attempts. If the first two attempts raise serial
faults, then a success on the third attempt returns the value after
exactly two reconnection attempts, and a third serial fault terminates
the read with the transport error wrapping the last underlying cause,
still after exactly two reconnection attempts. -/
theorem read_retry_bound (addr : ℤ) (op : Nat → Except PyExc ℤ) (e0 e1 : PyExc)
    (h0 : op 0 = Except.error e0) (f0 : isSerialFault e0 = true)
    (h1 : op 1 = Except.error e1) (f1 : isSerialFault e1 = true) :
    (∀ v : ℤ, op 2 = Except.ok v →
        readRegister addr op = { result := Except.ok v, attempts := 3, reconnects := 2 }) ∧
    (∀ e2 : PyExc, op 2 = Except.error e2 → isSerialFault e2 = true →
        readRegister addr op =
          { result := Except.error (PyExc.readFailed addr (PyExc.exhaustedRetries (some e2)))
            attempts := 3
            reconnects := 2 }) := by
  have hrun : executeWithReconnect op = execAux op 1 2 2 (some e1) := by
    show execAux op (2 + 1) 0 0 none = _
    rw [execAux_step, h0]
    simp only [f0]
    show execAux op (1 + 1) 1 1 (some e0) = _
    rw [execAux_step, h1]
    simp only [f1]
    norm_num
  constructor
  · intro v hv
    simp [readRegister, hrun, execAux_step, hv]
  · intro e2 hv f2
    simp [readRegister, hrun, execAux_step, hv, f2, execAux]

/-- Concrete instance of read_retry_bound: two serial faults then a
successful read of 42 at register 261 returns 42 with two reconnection
attempts over three executions. -/
theorem read_retry_bound_witness :
    readRegister 261
        (fun attempt =>
          match attempt with
          | 0 => Except.error (PyExc.osError "port gone")
          | 1 => Except.error (PyExc.serialException "still gone")
          | _ => Except.ok 42) =
      { result := Except.ok 42, attempts := 3, reconnects := 2 } :=
  (read_retry_bound 261
      (fun attempt =>
        match attempt with
        | 0 => Except.error (PyExc.osError "port gone")
        | 1 => Except.error (PyExc.serialException "still gone")
        | _ => Except.ok 42)
      (PyExc.osError "port gone") (PyExc.serialException "still gone")
      rfl rfl rfl rfl).1 42 rfl

/-- C5: a verified write whose read-back differs from the written value
fails on the first execution with the verification error (wrapped by the
outer write error), performs zero reconnection attempts, and is never
retried: the trace shows exactly one execution of the operation. -/
theorem write_verify_mismatch_no_retry (addr value rb : ℤ)
    (writes : Nat → Except PyExc Unit) (reads : Nat → Except PyExc ℤ)
    (hwr : writes 0 = Except.ok ()) (hrd : reads 0 = Except.ok rb) (hne : rb ≠ value) :
    writeRegister addr value writes reads =
      { result :=
          Except.error (PyExc.writeFailed addr value (PyExc.verificationMismatch addr value rb))
        attempts := 1
        reconnects := 0 } := by
  have hop : writeAndVerify (writes 0) (reads 0) addr value =
      Except.error (PyExc.verificationMismatch addr value rb) := by
    rw [hwr, hrd]
    simp [writeAndVerify, hne]
  have hrun : executeWithReconnect (fun attempt =>
        writeAndVerify (writes attempt) (reads attempt) addr value) =
      { result := Except.error (PyExc.verificationMismatch addr value rb)
        attempts := 1
        reconnects := 0 } := by
    show execAux _ (2 + 1) 0 0 none = _
    rw [execAux_step]
    simp [hop, isSerialFault]
  simp [writeRegister, hrun]

/-- Concrete instance of write_verify_mismatch_no_retry: writing 160 to
register 261 with a read-back of 0 fails at once with the verification
mismatch wrapped in the write error, one execution, zero reconnections. -/
theorem write_verify_mismatch_no_retry_witness :
    writeRegister 261 160 (fun _ => Except.ok ()) (fun _ => Except.ok 0) =
      { result :=
          Except.error (PyExc.writeFailed 261 160 (PyExc.verificationMismatch 261 160 0))
        attempts := 1
        reconnects := 0 } :=
  write_verify_mismatch_no_retry 261 160 0 (fun _ => Except.ok ()) (fun _ => Except.ok 0)
    rfl rfl (by decide)

/-- Evaluation rule for pyInt on a non-negative rational, through the
floor characterisation. -/
theorem pyInt_nonneg_eq (q : ℚ) (n : ℤ) (h0 : 0 ≤ q) (h1 : (n : ℚ) ≤ q) (h2 : q < n + 1) :
    pyInt q = n := by
  unfold pyInt
  rw [if_pos h0, Int.floor_eq_iff]
  exact ⟨h1, h2⟩

/-- C6 counterexample: the claim prescribes round(value * 10), but the
setters use the Python int() truncation. At value 5.99 the rounded
encoding is 60, which lies in the valid range, so the claim predicts
success; both setters raise ValueError because int(59.9) = 59. -/
theorem scaled_encode_round_counterexample :
    round ((599 : ℚ) / 100 * 10) = 60 ∧
    (60 ≤ (60 : ℤ) ∧ (60 : ℤ) ≤ 160) ∧
    Wallbox.setMaxCurrentEncode ((599 : ℚ) / 100) =
      Except.error (PyExc.valueError "Invalid max current") ∧
    Wallbox.setFailsafeCurrentEncode ((599 : ℚ) / 100) =
      Except.error (PyExc.valueError "Invalid failsafe current") := by
  have h59 : pyInt ((599 : ℚ) / 100 * 10) = 59 :=
    pyInt_nonneg_eq _ 59 (by norm_num) (by norm_num) (by norm_num)
  refine ⟨?_, by norm_num, ?_, ?_⟩
  · rw [round_eq, Int.floor_eq_iff]
    norm_num
  · unfold Wallbox.setMaxCurrentEncode
    rw [h59, if_pos (by norm_num)]
  · unfold Wallbox.setFailsafeCurrentEncode
    rw [h59, if_pos (by norm_num)]

/-- C6 as amended: the setters encode v with the Python int() truncation
of v * 10 toward zero, succeed exactly when that encoded value is 0 or
lies in 60..160 (returning the encoded value itself, which the uint16
clamp leaves unchanged in that range), and raise ValueError otherwise;
encode 16 gives 160. -/
theorem scaled_encode_truncates (v : ℚ) :
    (pyInt (v * 10) = 0 ∨ (60 ≤ pyInt (v * 10) ∧ pyInt (v * 10) ≤ 160) →
      Wallbox.setMaxCurrentEncode v = Except.ok (pyInt (v * 10)) ∧
      Wallbox.setFailsafeCurrentEncode v = Except.ok (pyInt (v * 10))) ∧
    (¬ (pyInt (v * 10) = 0 ∨ (60 ≤ pyInt (v * 10) ∧ pyInt (v * 10) ≤ 160)) →
      Wallbox.setMaxCurrentEncode v = Except.error (PyExc.valueError "Invalid max current") ∧
      Wallbox.setFailsafeCurrentEncode v =
        Except.error (PyExc.valueError "Invalid failsafe current")) ∧
    Wallbox.setMaxCurrentEncode 16 = Except.ok 160 := by
  have h160 : pyInt ((16 : ℚ) * 10) = 160 :=
    pyInt_nonneg_eq _ 160 (by norm_num) (by norm_num) (by norm_num)
  refine ⟨?_, ?_, ?_⟩
  · intro hS
    have hC : ¬ (pyInt (v * 10) ≠ 0 ∧ (pyInt (v * 10) < 60 ∨ pyInt (v * 10) > 160)) := by omega
    have hC2 : ¬ ((pyInt (v * 10) < 60 ∨ pyInt (v * 10) > 160) ∧ pyInt (v * 10) ≠ 0) := by omega
    have hclamp : fit_uint16 (pyInt (v * 10)) = pyInt (v * 10) := by
      unfold fit_uint16
      rw [if_neg (by omega), if_neg (by omega)]
    constructor
    · unfold Wallbox.setMaxCurrentEncode
      rw [if_neg hC, hclamp]
    · unfold Wallbox.setFailsafeCurrentEncode
      rw [if_neg hC2, hclamp]
  · intro hS
    have hC : pyInt (v * 10) ≠ 0 ∧ (pyInt (v * 10) < 60 ∨ pyInt (v * 10) > 160) := by omega
    have hC2 : (pyInt (v * 10) < 60 ∨ pyInt (v * 10) > 160) ∧ pyInt (v * 10) ≠ 0 := by omega
    constructor
    · unfold Wallbox.setMaxCurrentEncode
      rw [if_pos hC]
    · unfold Wallbox.setFailsafeCurrentEncode
      rw [if_pos hC2]
  · unfold Wallbox.setMaxCurrentEncode
    rw [h160, if_neg (by norm_num)]
    unfold fit_uint16
    rw [if_neg (by norm_num), if_neg (by norm_num)]

/-- Concrete instance of scaled_encode_truncates: value 12 encodes to
120 on both setters. -/
theorem scaled_encode_truncates_witness :
    Wallbox.setMaxCurrentEncode 12 = Except.ok (pyInt ((12 : ℚ) * 10)) ∧
    Wallbox.setFailsafeCurrentEncode 12 = Except.ok (pyInt ((12 : ℚ) * 10)) :=
  (scaled_encode_truncates 12).1 (by
    have h120 : pyInt ((12 : ℚ) * 10) = 120 :=
      pyInt_nonneg_eq _ 120 (by norm_num) (by norm_num) (by norm_num)
    rw [h120]
    norm_num)

/-- C7 counterexample: raw value 30 is outside the set 0 or 60..160, yet
the max_current getter decodes it to 3 A instead of failing. -/
theorem max_current_decode_counterexample :
    Wallbox.maxCurrentDecode 30 = Except.ok 3 ∧
    ¬ ((30 : ℤ) = 0 ∨ (60 ≤ (30 : ℤ) ∧ (30 : ℤ) ≤ 160)) := by
  constructor
  · show Except.ok (((30 : ℤ) : ℚ) / 10) = Except.ok 3
    norm_num
  · decide

/-- C7 as amended: decoding any raw register value as the max-current
property succeeds and returns raw divided by 10; the source applies no
validity check, so raw values outside the set 0 or 60..160 are not
rejected (the failsafe-current decoder, by contrast, rejects exactly
those values). -/
theorem max_current_decode_unvalidated (raw : ℤ)
    (h : ¬ (raw = 0 ∨ (60 ≤ raw ∧ raw ≤ 160))) :
    Wallbox.maxCurrentDecode raw = Except.ok ((raw : ℚ) / 10) ∧
    Wallbox.failsafeCurrentDecode raw =
      Except.error (PyExc.valueError "Invalid failsafe current") := by
  constructor
  · rfl
  · unfold Wallbox.failsafeCurrentDecode
    rw [if_neg (by omega)]

/-- Concrete instance of max_current_decode_unvalidated at raw 30. -/
theorem max_current_decode_unvalidated_witness :
    Wallbox.maxCurrentDecode 30 = Except.ok (((30 : ℤ) : ℚ) / 10) ∧
    Wallbox.failsafeCurrentDecode 30 =
      Except.error (PyExc.valueError "Invalid failsafe current") :=
  max_current_decode_unvalidated 30 (by decide)

/-- C8 counterexample: a manual request of 16 A from a fresh controller
resolves to 16 A, but when the device write fails the returned decision
carries applied_current none: the numerically resolved value is erased
from the decision, not exposed beside a distinguishable status. -/
theorem manual_write_failure_counterexample :
    (initManager.requestManual (some 16)).1.applied_current = some 16 ∧
    (requestManualMaxCurrent false initCtrl 16).1.applied_current = none ∧
    (requestManualMaxCurrent false initCtrl 16).2.lastApplied = none := by
  decide

/-- C8 as amended: for every manual request whose device write is
attempted and fails, the returned decision has applied_current none (the
resolved value is overwritten rather than preserved), and the
last-applied memory is cleared so the next resolution retries the
write; the only failure signal in the decision is that absence. -/
theorem failed_write_returns_none (cs : CtrlState) (v t : ℚ)
    (hres : (cs.manager.requestManual (some v)).1.applied_current = some t)
    (hskip : ∀ last, cs.lastApplied = some last → ¬ (|last - t| < 1/20)) :
    (requestManualMaxCurrent false cs v).1.applied_current = none ∧
    (requestManualMaxCurrent false cs v).2.lastApplied = none ∧
    (requestManualMaxCurrent false cs v).2.writeCalls = cs.writeCalls ++ [t] := by
  obtain ⟨mgr, la, wc⟩ := cs
  simp only at hres
  cases la with
  | none =>
      simp [requestManualMaxCurrent, applyDecision, hres]
  | some last =>
      have h := hskip last rfl
      have h2 : ¬ |last - t| < (20 : ℚ)⁻¹ := by rwa [one_div] at h
      simp [requestManualMaxCurrent, applyDecision, hres, h, h2]

/-- Concrete instance of failed_write_returns_none at a fresh controller
and a 16 A request. -/
theorem failed_write_returns_none_witness :
    (requestManualMaxCurrent false initCtrl 16).1.applied_current = none ∧
    (requestManualMaxCurrent false initCtrl 16).2.lastApplied = none ∧
    (requestManualMaxCurrent false initCtrl 16).2.writeCalls = initCtrl.writeCalls ++ [16] :=
  failed_write_returns_none initCtrl 16 16 (by decide)
    (by intro last hlast; cases hlast)

/-- One manual request step of the controller, keeping the state. -/
def manualStep (cs : CtrlState) (w : ℚ) : CtrlState :=
  (requestManualMaxCurrent true cs w).2

/-- A manual request whose target is within 0.05 A of the last applied
value is resolved but skips the device write: the last-applied memory
and the write log are unchanged (requires no hardware snapshot, so the
request resolves to its own value). -/
theorem manualStep_fields (cs : CtrlState) (v w : ℚ)
    (hlast : cs.lastApplied = some v) (hhw : cs.manager.hw = none)
    (hclose : |v - w| < 1/20) :
    (manualStep cs w).lastApplied = some v ∧
    (manualStep cs w).manager.hw = none ∧
    (manualStep cs w).writeCalls = cs.writeCalls := by
  obtain ⟨⟨shw, sman, mr, ld⟩, la, wc⟩ := cs
  simp only at hlast hhw
  subst hlast hhw
  have hclose2 : |v - w| < (20 : ℚ)⁻¹ := by rwa [one_div] at hclose
  simp [manualStep, requestManualMaxCurrent, ManagerState.requestManual, ManagerState.resolve,
    ManagerState.hardwareLimits, ManagerState.snapshotValues, listMin, applyDecision,
    hclose, hclose2]

/-- Folding skipped manual requests over the controller leaves the write
log, the last-applied value and the absent hardware snapshot unchanged. -/
theorem manualStep_foldl (v : ℚ) (vs : List ℚ) :
    ∀ cs : CtrlState, cs.lastApplied = some v → cs.manager.hw = none →
      (∀ w ∈ vs, |v - w| < 1/20) →
      (vs.foldl manualStep cs).lastApplied = some v ∧
      (vs.foldl manualStep cs).manager.hw = none ∧
      (vs.foldl manualStep cs).writeCalls = cs.writeCalls := by
  induction vs with
  | nil =>
      intro cs h1 h2 _
      exact ⟨h1, h2, rfl⟩
  | cons w ws ih =>
      intro cs h1 h2 hclose
      have hstep := manualStep_fields cs v w h1 h2 (hclose w (List.mem_cons_self w ws))
      have hrest := ih (manualStep cs w) hstep.1 hstep.2.1
        (fun u hu => hclose u (List.mem_cons_of_mem w hu))
      simp only [List.foldl_cons]
      exact ⟨hrest.1, hrest.2.1, hrest.2.2.trans hstep.2.2⟩

/-- C9: starting from a fresh controller, a first manual request of v
whose write succeeds followed by any number of manual requests all
within 0.05 A of v leaves exactly one value in the device write log (the
first), and the last applied value stays v. -/
theorem repeated_manual_single_write (v : ℚ) (vs : List ℚ)
    (hclose : ∀ w ∈ vs, |v - w| < 1/20) :
    (vs.foldl manualStep (requestManualMaxCurrent true initCtrl v).2).writeCalls = [v] ∧
    (vs.foldl manualStep (requestManualMaxCurrent true initCtrl v).2).lastApplied = some v := by
  have hfirst1 : (requestManualMaxCurrent true initCtrl v).2.lastApplied = some v := by
    simp [requestManualMaxCurrent, initCtrl, initManager, ManagerState.requestManual,
      ManagerState.resolve, ManagerState.hardwareLimits, ManagerState.snapshotValues,
      listMin, applyDecision]
  have hfirst2 : (requestManualMaxCurrent true initCtrl v).2.manager.hw = none := by
    simp [requestManualMaxCurrent, initCtrl, initManager, ManagerState.requestManual,
      ManagerState.resolve, ManagerState.hardwareLimits, ManagerState.snapshotValues,
      listMin, applyDecision]
  have hfirst3 : (requestManualMaxCurrent true initCtrl v).2.writeCalls = [v] := by
    simp [requestManualMaxCurrent, initCtrl, initManager, ManagerState.requestManual,
      ManagerState.resolve, ManagerState.hardwareLimits, ManagerState.snapshotValues,
      listMin, applyDecision]
  have h := manualStep_foldl v vs _ hfirst1 hfirst2 hclose
  exact ⟨h.2.2.trans hfirst3, h.1⟩

/-- Concrete instance of repeated_manual_single_write: three identical
16 A requests leave exactly one device write. -/
theorem repeated_manual_single_write_witness :
    (([16, 16] : List ℚ).foldl manualStep
        (requestManualMaxCurrent true initCtrl 16).2).writeCalls = [16] ∧
    (([16, 16] : List ℚ).foldl manualStep
        (requestManualMaxCurrent true initCtrl 16).2).lastApplied = some 16 :=
  repeated_manual_single_write 16 [16, 16] (by
    intro w hw
    simp at hw
    subst hw
    norm_num)

/-- C10: installing a snapshot whose source is MANUAL_REQUEST through
apply_override_snapshot replaces the manual snapshot used by resolution
but never touches the separately remembered manual-request value; that
value is changed only by request_manual and by clear_source of
MANUAL_REQUEST, so the debug output manual_request field can disagree
with the manual snapshot driving arbitration, as the concrete run in the
last conjunct shows (remembered 10 A versus arbitrated 5 A). -/
theorem override_keeps_manual_request (st : ManagerState) (s : LimitSnapshot)
    (hs : s.source = LimitSource.MANUAL_REQUEST) :
    (st.applyOverrideSnapshot s).2.manualRequest = st.manualRequest ∧
    (st.applyOverrideSnapshot s).2.man = some s ∧
    (∀ (st₂ : ManagerState) (s₂ : LimitSnapshot),
        (st₂.applyOverrideSnapshot s₂).2.manualRequest = st₂.manualRequest) ∧
    (∀ st₂ : ManagerState,
        (st₂.clearSource LimitSource.HARDWARE_INPUT).2.manualRequest = st₂.manualRequest) ∧
    (∀ (st₂ : ManagerState) (value : Option ℚ),
        (st₂.requestManual value).2.manualRequest = value) ∧
    (∀ st₂ : ManagerState,
        (st₂.clearSource LimitSource.MANUAL_REQUEST).2.manualRequest = none) ∧
    (((initManager.requestManual (some 10)).2.applyOverrideSnapshot
          { source := LimitSource.MANUAL_REQUEST, enforced := true, current_amps := some 5,
            description := "api override", details := SnapshotDetails.empty
          }).2.debugSnapshot.manual_request = some 10 ∧
      ((initManager.requestManual (some 10)).2.applyOverrideSnapshot
          { source := LimitSource.MANUAL_REQUEST, enforced := true, current_amps := some 5,
            description := "api override", details := SnapshotDetails.empty
          }).2.lastDecision.map (fun d => d.applied_current) = some (some 5)) := by
  refine ⟨?_, ?_, ?_, ?_, ?_, ?_, by decide⟩
  · simp [ManagerState.applyOverrideSnapshot, hs, ManagerState.resolve]
  · simp [ManagerState.applyOverrideSnapshot, hs, ManagerState.resolve]
  · intro st₂ s₂
    cases h2 : s₂.source <;> simp [ManagerState.applyOverrideSnapshot, h2, ManagerState.resolve]
  · intro st₂
    simp [ManagerState.clearSource, ManagerState.resolve]
  · intro st₂ value
    simp [ManagerState.requestManual, ManagerState.resolve]
  · intro st₂
    simp [ManagerState.clearSource, ManagerState.resolve]

/-- Concrete instance of override_keeps_manual_request: installing a
manual-sourced override snapshot on a fresh manager leaves the
remembered manual-request value untouched. -/
theorem override_keeps_manual_request_witness :
    (initManager.applyOverrideSnapshot
        { source := LimitSource.MANUAL_REQUEST, enforced := true, current_amps := some 5,
          description := "api override", details := SnapshotDetails.empty
        }).2.manualRequest = initManager.manualRequest :=
  (override_keeps_manual_request initManager
      { source := LimitSource.MANUAL_REQUEST, enforced := true, current_amps := some 5,
        description := "api override", details := SnapshotDetails.empty } rfl).1
